import Mathlib

/-!
# Verification of the GSAP wrapper library (`general-utils.js`)

Shallow embedding of the repository's two (near-duplicate) source files.
The canonical source is `src/js/general-utils.js`; the unnamed duplicate
contains a strict subset of its functions (its `loadSVG` lacks the
callback parameter).

Modelling decisions:
* A GSAP timeline is an ordered list of appended segments; `timeline.to`
  appends one segment (target selector, tween vars, optional position
  token) at the end, which is exactly the observable effect the spec
  ascribes to it.
* JS numbers are modelled as `ℚ`; the template-literal rendering of a
  number (`` `+=${x}` ``) is modelled by `jsNumToString`, a decimal
  formatter faithful to JS for every value with a finite decimal
  expansion (all values occurring in this repository).
* The DOM relevant to `loadSVG`/`bringToFront` is modelled explicitly:
  a list of `(id, innerHTML)` containers for `loadSVG`, and a single
  parent's ordered child list for `bringToFront`.
* `fetch` resolves with an HTTP response (any status — `response.ok`
  is never inspected by the code) or rejects with a network error;
  the promise-chain's `.catch` is modelled by running the success chain
  in `Except` and folding the error case into the console log.
-/

/-- The tween-vars object passed to `timeline.to`: only the fields this
repository ever sets. Unset fields are `none`/`[]`. -/
structure TweenVars where
  duration : Option ℚ := none
  x : Option String := none
  scaleX : Option ℚ := none
  transformOrigin : Option String := none
  ease : Option String := none
  rotation : Option String := none
  repeatCount : Option ℤ := none
  attr : List (String × String) := []
  motionPathPath : Option String := none
  motionPathAlign : Option String := none
  motionPathAlignOrigin : Option (ℚ × ℚ) := none
  motionPathAutoRotate : Option Bool := none
  hasOnComplete : Bool := false
  deriving Repr, DecidableEq

/-- One scheduled animation segment: target selector, tween vars, and the
optional position token (third argument of `timeline.to`). -/
structure Segment where
  target : String
  vars : TweenVars
  position : Option String := none
  deriving Repr, DecidableEq

/-- A GSAP timeline, reduced to its ordered list of appended segments. -/
structure Timeline where
  segments : List Segment
  deriving Repr, DecidableEq

/-- `timeline.to(target, vars)` — two-argument form: append at the end. -/
def Timeline.toEnd (tl : Timeline) (target : String) (vars : TweenVars) : Timeline :=
  { segments := tl.segments ++ [{ target := target, vars := vars }] }

/-- `timeline.to(target, vars, position)` — three-argument form. -/
def Timeline.toAt (tl : Timeline) (target : String) (vars : TweenVars)
    (position : Option String) : Timeline :=
  { segments := tl.segments ++ [{ target := target, vars := vars, position := position }] }

/-- `spinTheThings(timeline, duration)` from `src/js/general-utils.js`. -/
def spinTheThings (timeline : Timeline) (duration : ℚ) : Timeline :=
  timeline.toEnd ".spinnable"
    { duration := some duration
      rotation := some "+=360"
      transformOrigin := some "50% 50%"
      ease := some "linear"
      repeatCount := some (-1) }

/-- `openDoorLeft(timeline, doorId)` from `src/js/general-utils.js`. -/
def openDoorLeft (timeline : Timeline) (doorId : String) : Timeline :=
  timeline.toEnd doorId
    { duration := some 1.5
      x := some "0%"
      scaleX := some 0
      transformOrigin := some "left center"
      ease := some "power2.out" }

/-- `moveAlong(timeline, elementId, pathId, position = null, repeat = 0)`
from `src/js/general-utils.js`. -/
def moveAlong (timeline : Timeline) (elementId pathId : String)
    (position : Option String := none) (rep : ℤ := 0) : Timeline :=
  timeline.toAt elementId
    { duration := some 1
      ease := some "power1.inOut"
      motionPathPath := some pathId
      motionPathAlign := some pathId
      motionPathAlignOrigin := some (1/2, 1/2)
      repeatCount := some rep }
    position

/-- `zoomTo(timeline, id, viewBoxParams)` from `src/js/general-utils.js`. -/
def zoomTo (timeline : Timeline) (id viewBoxParams : String) : Timeline :=
  timeline.toEnd id
    { duration := some 1
      attr := [("viewBox", viewBoxParams)]
      ease := some "power3.inOut"
      hasOnComplete := true }

/-- Decimal digits of `n`, most significant first; `[]` for `n = 0`.
The first argument is fuel (structural recursion); `n` itself is always
enough fuel since a number has at most `n` digits. -/
def natDecAux : ℕ → ℕ → List Char
  | 0, _ => []
  | fuel + 1, n =>
    if n = 0 then [] else natDecAux fuel (n / 10) ++ [Nat.digitChar (n % 10)]

/-- Decimal rendering of a natural number, as JS renders it. -/
def natDec (n : ℕ) : List Char :=
  if n = 0 then ['0'] else natDecAux n n

/-- Digits after the decimal point of a rational `0 ≤ q < 1`, by repeated
multiplication by 10; the fuel bounds the number of digits produced and
is ample for every value with a finite decimal expansion. -/
def fracDecAux : ℕ → ℚ → List Char
  | 0, _ => []
  | fuel + 1, q =>
    if q = 0 then []
    else Nat.digitChar (⌊q * 10⌋.toNat % 10) :: fracDecAux fuel (q * 10 - ⌊q * 10⌋)

/-- Digit list of a nonnegative rational: integer part, then, when the
value is not an integer, a point and the fractional digits. -/
def jsNumDigits (q : ℚ) : List Char :=
  natDec ⌊q⌋.toNat ++ (if q.den = 1 then [] else '.' :: fracDecAux q.den (q - ⌊q⌋))

/-- How a JS template literal renders a number (faithful to JS for every
value with a finite decimal expansion, which covers all values arising
in this repository). -/
def jsNumToString (q : ℚ) : String :=
  String.mk (if q < 0 then '-' :: jsNumDigits (-q) else jsNumDigits q)

/-- `startWithPrevious(secondsOffset = 0)` from `src/js/general-utils.js`:
`secondsOffset === 0 ? "<" : `<${secondsOffset}``. -/
def startWithPrevious (secondsOffset : ℚ := 0) : String :=
  if secondsOffset = 0 then "<" else "<" ++ jsNumToString secondsOffset

/-- `startAfterPrevious(secondsOffset = 0)` from `src/js/general-utils.js`:
`secondsOffset === 0 ? "+=0" : `+=${secondsOffset}``. -/
def startAfterPrevious (secondsOffset : ℚ := 0) : String :=
  if secondsOffset = 0 then "+=0" else "+=" ++ jsNumToString secondsOffset

/-- The tween vars of one `switchLights` segment:
`{ attr: { fill: "green" }, duration: 0.5, ease: "none" }`. -/
def lightVars : TweenVars :=
  { attr := [("fill", "green")], duration := some 0.5, ease := some "none" }

/-- The body of `switchLights`'s `forEach`: `lights.forEach((light, index) =>
timeline.to(light, …, `+=${delay * index}`))`, with the running index
made explicit. -/
def switchLightsGo (delay : ℚ) : Timeline → List String → ℕ → Timeline
  | tl, [], _ => tl
  | tl, light :: rest, index =>
    switchLightsGo delay
      (tl.toAt light lightVars (some ("+=" ++ jsNumToString (delay * (index : ℚ)))))
      rest (index + 1)

/-- `switchLights(lights, timeline, delay)` from `src/js/general-utils.js`. -/
def switchLights (lights : List String) (timeline : Timeline) (delay : ℚ) : Timeline :=
  switchLightsGo delay timeline lights 0

/-- The segment `switchLights` appends for the light at index `i`. -/
def lightSegment (delay : ℚ) (i : ℕ) (light : String) : Segment :=
  { target := light, vars := lightVars
    position := some ("+=" ++ jsNumToString (delay * (i : ℚ))) }

/-- The segments `switchLights` appends for a selector list, first index `i`. -/
def lightSegments (delay : ℚ) : ℕ → List String → List Segment
  | _, [] => []
  | i, light :: rest => lightSegment delay i light :: lightSegments delay (i + 1) rest

/-- `moveOnPath(timeline, id, path, duration, startWithPrevious = false)`
from `src/js/general-utils.js`. -/
def moveOnPath (timeline : Timeline) (id path : String) (duration : ℚ)
    (startWithPrev : Bool := false) : Timeline :=
  let position := if startWithPrev then "<" else "+=0"
  timeline.toAt id
    { motionPathPath := some path
      motionPathAlign := some path
      motionPathAlignOrigin := some (1/2, 1/2)
      motionPathAutoRotate := some false
      duration := some duration
      ease := some "power1.inOut" }
    (some position)

/-- `document.getElementById` restricted to one parent's child list:
children are identified by their `id` attribute, in document order
(ids are unique in a well-formed document, which `getElementById`
presumes; with duplicates it returns the first match, as modelled). -/
def getElementById (elementId : String) (children : List String) : Option String :=
  children.find? (· == elementId)

/-- `bringToFront(elementId)` from `src/js/general-utils.js`:
`document.getElementById(elementId)` then
`element.parentNode.appendChild(element)`. When no element has the id,
`getElementById` yields `null` and the `.parentNode` dereference throws
a `TypeError` before anything is mutated, so the child list comes back
unchanged next to the error. `appendChild` on a node already in the
document first detaches it from its current position, then inserts it
as the last child. -/
def bringToFront (elementId : String) (children : List String) :
    Except String Unit × List String :=
  match getElementById elementId children with
  | none => (.error "TypeError: Cannot read properties of null (reading 'parentNode')",
             children)
  | some e => (.ok (), children.erase e ++ [e])

/-- Outcome of `fetch(url)`: the promise resolves with an HTTP response
(any status — the code never reads `response.ok` or `response.status`),
whose `text()` resolves with the body, or rejects with a network-level
error. -/
inductive FetchOutcome where
  | respond (status : ℕ) (body : String)
  | reject (error : String)
  deriving Repr, DecidableEq

/-- The browser state `loadSVG` observes and mutates: container elements
by id with their `innerHTML`, the `(x, y)` positions recorded by
`gsap.set` per selector (appended, last write wins), the console error
log, and how many times the caller-supplied callback has run. -/
structure BrowserState where
  containers : List (String × String)
  gsapSets : List (String × (ℚ × ℚ))
  consoleErrors : List String
  callbackRuns : ℕ
  deriving Repr, DecidableEq

/-- `document.getElementById(id).innerHTML = content` on the container
list: the matching container's content is replaced. -/
def setInnerHTML (id content : String) (cs : List (String × String)) :
    List (String × String) :=
  cs.map fun c => if c.1 = id then (id, content) else c

/-- Read a container's `innerHTML`. -/
def getInnerHTML (id : String) (cs : List (String × String)) : Option String :=
  (cs.find? (·.1 == id)).map (·.2)

/-- The success continuation of `loadSVG`'s promise chain (the second
`.then`): assign the fetched text to the container's `innerHTML`, call
`gsap.set` on the inserted root graphic, and run the callback when one
was supplied. Run in `Except`: assigning `innerHTML` on the `null`
returned by `getElementById` for a missing container throws. -/
def loadSVGThen (target : String) (x y : ℚ) (hasCallback : Bool) (svg : String)
    (st : BrowserState) : Except String BrowserState :=
  if (st.containers.find? (·.1 == target)).isSome then
    .ok { st with
      containers := setInnerHTML target svg st.containers
      gsapSets := st.gsapSets ++ [("#" ++ target ++ " svg", (x, y))]
      callbackRuns := st.callbackRuns + (if hasCallback then 1 else 0) }
  else
    .error "TypeError: Cannot set properties of null (setting 'innerHTML')"

/-- `loadSVG(url, target, x, y, callback)` from `src/js/general-utils.js`.
The `url` argument is consumed only by `fetch`, whose result is the
`outcome` argument here; `callback` is modelled by whether one was
supplied. The final `.catch` turns a fetch rejection or an error thrown
in either `.then` into exactly one `console.error`, so `loadSVG` is
total: no exception escapes to the caller. -/
def loadSVG (outcome : FetchOutcome) (target : String) (x y : ℚ)
    (hasCallback : Bool) (st : BrowserState) : BrowserState :=
  match outcome with
  | .reject err =>
    { st with consoleErrors := st.consoleErrors ++ ["Error loading SVG: " ++ err] }
  | .respond _ body =>
    match loadSVGThen target x y hasCallback body st with
    | .ok st' => st'
    | .error err =>
      { st with consoleErrors := st.consoleErrors ++ ["Error loading SVG: " ++ err] }

/-- The timeline a caller starts from in the C7 scenario. -/
def emptyTimeline : Timeline := { segments := [] }

/-! ## Helper lemmas -/

theorem natDecAux_zero (fuel : ℕ) : natDecAux fuel 0 = [] := by
  cases fuel <;> simp [natDecAux]

theorem natDecAux_ne_nil {fuel n : ℕ} (hn : n ≠ 0) (hf : n ≤ fuel) :
    natDecAux fuel n ≠ [] := by
  cases fuel with
  | zero => omega
  | succ f => simp [natDecAux, hn]

theorem natDecAux_ne_zero_digit {fuel n : ℕ} (hn : n ≠ 0) (hf : n ≤ fuel) :
    natDecAux fuel n ≠ ['0'] := by
  cases fuel with
  | zero => omega
  | succ f =>
    by_cases hq : n / 10 = 0
    · have hlt : n < 10 := by omega
      have hpos : 0 < n := by omega
      simp only [natDecAux, if_neg hn, hq, natDecAux_zero, List.nil_append]
      interval_cases n <;> decide
    · intro h
      have hne : natDecAux f (n / 10) ≠ [] := natDecAux_ne_nil hq (by omega)
      have hlen := congrArg List.length h
      simp only [natDecAux, if_neg hn, List.length_append, List.length_cons,
        List.length_nil] at hlen
      have : 0 < (natDecAux f (n / 10)).length := List.length_pos.mpr hne
      omega

theorem natDec_ne_nil (n : ℕ) : natDec n ≠ [] := by
  by_cases h : n = 0
  · simp [natDec, h]
  · simpa [natDec, h] using natDecAux_ne_nil h le_rfl

theorem natDec_eq_zero_digit {n : ℕ} (h : natDec n = ['0']) : n = 0 := by
  by_cases h0 : n = 0
  · exact h0
  · rw [natDec, if_neg h0] at h
    exact absurd h (natDecAux_ne_zero_digit h0 le_rfl)

theorem jsNumDigits_ne_nil (q : ℚ) : jsNumDigits q ≠ [] := by
  unfold jsNumDigits
  intro h
  exact natDec_ne_nil _ (List.append_eq_nil.mp h).1

theorem jsNumDigits_pos_ne_zero_digit {q : ℚ} (hq : 0 < q) : jsNumDigits q ≠ ['0'] := by
  intro h
  unfold jsNumDigits at h
  by_cases hden : q.den = 1
  · simp [hden] at h
    have hn := natDec_eq_zero_digit h
    have hfl : ⌊q⌋ = q.num := by rw [Rat.floor_def, hden]; simp
    have hnum : 0 < q.num := Rat.num_pos.mpr hq
    omega
  · rw [if_neg hden] at h
    have hlen := congrArg List.length h
    simp only [List.length_append, List.length_cons, List.length_nil] at hlen
    have : 0 < (natDec ⌊q⌋.toNat).length := List.length_pos.mpr (natDec_ne_nil _)
    omega

theorem jsNumToString_ne_empty {q : ℚ} (hq : q ≠ 0) : jsNumToString q ≠ "" := by
  unfold jsNumToString
  intro h
  have hd := congrArg String.data h
  rcases lt_or_gt_of_ne hq with hlt | hgt
  · rw [if_pos hlt] at hd
    simp at hd
  · rw [if_neg (not_lt.mpr hgt.le)] at hd
    exact jsNumDigits_ne_nil q hd

theorem jsNumToString_ne_zero_str {q : ℚ} (hq : q ≠ 0) : jsNumToString q ≠ "0" := by
  unfold jsNumToString
  intro h
  have hd := congrArg String.data h
  rcases lt_or_gt_of_ne hq with hlt | hgt
  · rw [if_pos hlt] at hd
    simp at hd
  · rw [if_neg (not_lt.mpr hgt.le)] at hd
    exact jsNumDigits_pos_ne_zero_digit hgt hd

theorem lightSegments_length (d : ℚ) : ∀ (i : ℕ) (ls : List String),
    (lightSegments d i ls).length = ls.length := by
  intro i ls
  induction ls generalizing i with
  | nil => rfl
  | cons l rest ih => simp [lightSegments, ih]

theorem switchLightsGo_segments (delay : ℚ) (tl : Timeline) (lights : List String) (i : ℕ) :
    (switchLightsGo delay tl lights i).segments
      = tl.segments ++ lightSegments delay i lights := by
  induction lights generalizing tl i with
  | nil => simp [switchLightsGo, lightSegments]
  | cons l rest ih =>
    simp [switchLightsGo, lightSegments, ih, Timeline.toAt, lightSegment]

/-! ## Claim theorems -/

/-- **C6**: every call of `openDoorLeft`, `spinTheThings`, `moveAlong` or
`zoomTo` appends exactly one segment to the passed timeline and leaves
every segment already present unchanged (the prior segment list is an
unmodified prefix of the new one); the JS functions return `undefined`,
so the timeline mutation is the entire effect, as modelled. -/
theorem helpers_append_exactly_one (tl : Timeline) (doorId elementId pathId id vb : String)
    (dur : ℚ) (pos : Option String) (rep : ℤ) :
    (∃ s, (openDoorLeft tl doorId).segments = tl.segments ++ [s])
    ∧ (∃ s, (spinTheThings tl dur).segments = tl.segments ++ [s])
    ∧ (∃ s, (moveAlong tl elementId pathId pos rep).segments = tl.segments ++ [s])
    ∧ (∃ s, (zoomTo tl id vb).segments = tl.segments ++ [s]) :=
  ⟨⟨_, rfl⟩, ⟨_, rfl⟩, ⟨_, rfl⟩, ⟨_, rfl⟩⟩

/-- **C8**: `spinTheThings(timeline, duration)` appends one segment that
targets the fixed `.spinnable` marker, rotates by a full `+=360`
degrees, repeats indefinitely (`repeat: -1`), eases linearly, and sets
the transform origin at the element's own center (`50% 50%`). -/
theorem spinTheThings_segment (tl : Timeline) (dur : ℚ) :
    (spinTheThings tl dur).segments = tl.segments
      ++ [{ target := ".spinnable"
            vars := { duration := some dur, rotation := some "+=360"
                      transformOrigin := some "50% 50%", ease := some "linear"
                      repeatCount := some (-1) }
            position := none }] := rfl

/-- **C7**: starting from an empty timeline, `openDoorLeft(tl, "#door1")`
followed by `moveAlong(tl, "#cart", "#path1", startWithPrevious())`
leaves exactly 2 segments, and the second carries the `"<"` position
token that starts it simultaneously with the first. -/
theorem scenario_door_then_moveAlong :
    (moveAlong (openDoorLeft emptyTimeline "#door1") "#cart" "#path1"
        (some (startWithPrevious 0))).segments.length = 2
    ∧ ((moveAlong (openDoorLeft emptyTimeline "#door1") "#cart" "#path1"
        (some (startWithPrevious 0))).segments.map Segment.position)
      = [none, some "<"]
    ∧ ((moveAlong (openDoorLeft emptyTimeline "#door1") "#cart" "#path1"
        (some (startWithPrevious 0))).segments.map Segment.target)
      = ["#door1", "#cart"] := by
  refine ⟨rfl, ?_, rfl⟩
  simp [moveAlong, openDoorLeft, emptyTimeline, Timeline.toAt, Timeline.toEnd,
    startWithPrevious]

/-- **C1**: `switchLights(lights, timeline, delay)` appends exactly one
segment per selector, in index order, the segment for index `i` being
positioned `delay × i` seconds past the timeline's insertion point at
the time it is appended (token `` `+=${delay * i}` ``); with
`delay = 1` and selectors `[a, b, c]` the three appended segments carry
the offset tokens `+=0`, `+=1` and `+=2`. -/
theorem switchLights_appends (lights : List String) (tl : Timeline) (d : ℚ) :
    (switchLights lights tl d).segments = tl.segments ++ lightSegments d 0 lights
    ∧ (switchLights lights tl d).segments.length
        = tl.segments.length + lights.length
    ∧ ∀ a b c : String,
        (switchLights [a, b, c] tl 1).segments
          = tl.segments ++ [⟨a, lightVars, some "+=0"⟩, ⟨b, lightVars, some "+=1"⟩,
              ⟨c, lightVars, some "+=2"⟩] := by
  refine ⟨switchLightsGo_segments d tl lights 0, ?_, ?_⟩
  · rw [show (switchLights lights tl d).segments
        = tl.segments ++ lightSegments d 0 lights from
      switchLightsGo_segments d tl lights 0]
    simp [lightSegments_length]
  · intro a b c
    rw [show (switchLights [a, b, c] tl 1).segments
        = tl.segments ++ lightSegments 1 0 [a, b, c] from
      switchLightsGo_segments 1 tl [a, b, c] 0]
    have e0 : ("+=" ++ jsNumToString 0 : String) = "+=0" := by decide
    have e1 : ("+=" ++ jsNumToString 1 : String) = "+=1" := by decide
    have e2 : ("+=" ++ jsNumToString 2 : String) = "+=2" := by decide
    simp [lightSegments, lightSegment, e0, e1, e2]

/-- **C4**: `startWithPrevious(0)` yields the bare simultaneous token
`"<"` and `startAfterPrevious(0)` the bare zero-offset append token
`"+=0"`, each distinct from the token either function produces for any
non-zero offset; and at a non-zero offset such as 2 the two functions
produce different tokens (`"<2"` vs `"+=2"`). -/
theorem position_token_distinctness (s : ℚ) (hs : s ≠ 0) :
    startWithPrevious 0 = "<"
    ∧ startAfterPrevious 0 = "+=0"
    ∧ startWithPrevious 0 ≠ startWithPrevious s
    ∧ startAfterPrevious 0 ≠ startAfterPrevious s
    ∧ startWithPrevious 2 ≠ startAfterPrevious 2 := by
  have hW : startWithPrevious s = "<" ++ jsNumToString s := if_neg hs
  have hA : startAfterPrevious s = "+=" ++ jsNumToString s := if_neg hs
  refine ⟨rfl, rfl, ?_, ?_, by decide⟩
  · intro h
    rw [show startWithPrevious 0 = "<" from rfl, hW] at h
    have hd := congrArg String.data h
    rw [String.data_append, show ("<" : String).data = ['<'] from rfl] at hd
    simp only [List.cons_append, List.nil_append, List.cons.injEq, true_and] at hd
    exact jsNumToString_ne_empty hs (String.ext hd.symm)
  · intro h
    rw [show startAfterPrevious 0 = "+=0" from rfl, hA] at h
    have hd := congrArg String.data h
    rw [String.data_append, show ("+=0" : String).data = ['+', '=', '0'] from rfl,
      show ("+=" : String).data = ['+', '='] from rfl] at hd
    simp only [List.cons_append, List.nil_append, List.cons.injEq, true_and] at hd
    exact jsNumToString_ne_zero_str hs (String.ext hd.symm)

/-- Witness for `position_token_distinctness` at the concrete non-zero
offset 2. -/
theorem position_token_distinctness_witness :
    (2 : ℚ) ≠ 0
    ∧ (startWithPrevious 0 = "<"
      ∧ startAfterPrevious 0 = "+=0"
      ∧ startWithPrevious 0 ≠ startWithPrevious 2
      ∧ startAfterPrevious 0 ≠ startAfterPrevious 2
      ∧ startWithPrevious 2 ≠ startAfterPrevious 2) :=
  ⟨by decide, position_token_distinctness 2 (by decide)⟩

theorem getElementById_mem {elementId : String} {children : List String}
    (h : elementId ∈ children) : getElementById elementId children = some elementId := by
  induction children with
  | nil => simp at h
  | cons b rest ih =>
    rcases List.mem_cons.mp h with hb | hb
    · subst hb
      simp [getElementById, List.find?_cons]
    · by_cases hbe : (b == elementId) = true
      · have := eq_of_beq hbe
        subst this
        simp [getElementById, List.find?_cons]
      · rw [getElementById, List.find?_cons]
        rw [Bool.not_eq_true] at hbe
        rw [hbe]
        exact ih hb

/-- **C5**: for an existing element id, `bringToFront` succeeds and makes
the element the last child of its parent, and it is idempotent: a second
call in a row succeeds and leaves the sibling ordering exactly as the
first call left it (document ids are unique, hence the `Nodup`
hypothesis on the child list). -/
theorem bringToFront_idempotent (elementId : String) (children : List String)
    (hmem : elementId ∈ children) (hnd : children.Nodup) :
    (bringToFront elementId children).1 = .ok ()
    ∧ (bringToFront elementId children).2.getLast? = some elementId
    ∧ bringToFront elementId (bringToFront elementId children).2
        = (.ok (), (bringToFront elementId children).2) := by
  have hfind : getElementById elementId children = some elementId :=
    getElementById_mem hmem
  have h2 : (bringToFront elementId children).2
      = children.erase elementId ++ [elementId] := by
    simp [bringToFront, hfind]
  refine ⟨by simp [bringToFront, hfind], ?_, ?_⟩
  · rw [h2]
    exact List.getLast?_concat _
  · rw [h2]
    have hmem2 : elementId ∈ children.erase elementId ++ [elementId] := by simp
    have hfind2 : getElementById elementId (children.erase elementId ++ [elementId])
        = some elementId := getElementById_mem hmem2
    have hnotmem : elementId ∉ children.erase elementId := fun hc =>
      (((List.Nodup.mem_erase_iff hnd).mp hc).1) rfl
    simp only [bringToFront, hfind2]
    rw [List.erase_append_right _ hnotmem]
    simp

/-- Witness for `bringToFront_idempotent` on the child list
`["a", "b"]` with id `"a"`. -/
theorem bringToFront_idempotent_witness :
    ("a" ∈ ["a", "b"] ∧ (["a", "b"] : List String).Nodup)
    ∧ ((bringToFront "a" ["a", "b"]).1 = .ok ()
      ∧ (bringToFront "a" ["a", "b"]).2.getLast? = some "a"
      ∧ bringToFront "a" (bringToFront "a" ["a", "b"]).2
          = (.ok (), (bringToFront "a" ["a", "b"]).2)) :=
  ⟨⟨by decide, by decide⟩, bringToFront_idempotent "a" ["a", "b"] (by decide) (by decide)⟩

/-- **C10**: when no element has the given id, `bringToFront` throws (the
`null.parentNode` dereference) rather than degrading to a no-op, and the
failed call leaves the sibling ordering unchanged. -/
theorem bringToFront_missing_throws (elementId : String) (children : List String)
    (h : elementId ∉ children) :
    bringToFront elementId children
      = (.error "TypeError: Cannot read properties of null (reading 'parentNode')",
         children) := by
  have hfind : getElementById elementId children = none := by
    rw [getElementById, List.find?_eq_none]
    intro x hx
    simp only [beq_iff_eq]
    rintro rfl
    exact h hx
  simp [bringToFront, hfind]

/-- Witness for `bringToFront_missing_throws` with id `"x"` absent from
the child list `["a", "b"]`. -/
theorem bringToFront_missing_throws_witness :
    ("x" ∉ (["a", "b"] : List String))
    ∧ bringToFront "x" ["a", "b"]
      = (.error "TypeError: Cannot read properties of null (reading 'parentNode')",
         ["a", "b"]) :=
  ⟨by decide, bringToFront_missing_throws "x" ["a", "b"] (by decide)⟩

theorem getInnerHTML_setInnerHTML (target body : String) :
    ∀ (cs : List (String × String)), (cs.find? (·.1 == target)).isSome = true →
      getInnerHTML target (setInnerHTML target body cs) = some body
  | [], h => by simp [List.find?] at h
  | c :: rest, h => by
    by_cases hc : c.1 = target
    · simp [setInnerHTML, getInnerHTML, List.find?_cons, hc]
    · have hfalse : (c.1 == target) = false := by simp [hc]
      have hrest : (rest.find? (·.1 == target)).isSome = true := by
        rw [List.find?_cons] at h
        simpa [hfalse] using h
      have hih := getInnerHTML_setInnerHTML target body rest hrest
      simp only [setInnerHTML, getInnerHTML, List.map_cons, if_neg hc,
        List.find?_cons, hfalse] at hih ⊢
      exact hih

/-- **C2**: when the fetch succeeds and the target container exists, the
container's content afterwards equals the fetched markup (previous
content replaced), the inserted root graphic (`#target svg`) is
positioned at `(x, y)`, a supplied callback runs exactly once after
positioning, and nothing is logged. -/
theorem loadSVG_success (status : ℕ) (body target : String) (x y : ℚ)
    (hasCallback : Bool) (st : BrowserState)
    (hc : (st.containers.find? (·.1 == target)).isSome = true) :
    (loadSVG (.respond status body) target x y hasCallback st).containers
        = setInnerHTML target body st.containers
    ∧ getInnerHTML target
        ((loadSVG (.respond status body) target x y hasCallback st).containers)
        = some body
    ∧ (loadSVG (.respond status body) target x y hasCallback st).gsapSets.getLast?
        = some ("#" ++ target ++ " svg", (x, y))
    ∧ (loadSVG (.respond status body) target x y hasCallback st).callbackRuns
        = st.callbackRuns + (if hasCallback then 1 else 0)
    ∧ (loadSVG (.respond status body) target x y hasCallback st).consoleErrors
        = st.consoleErrors := by
  have hload : loadSVG (.respond status body) target x y hasCallback st
      = { st with
          containers := setInnerHTML target body st.containers
          gsapSets := st.gsapSets ++ [("#" ++ target ++ " svg", (x, y))]
          callbackRuns := st.callbackRuns + (if hasCallback then 1 else 0) } := by
    simp [loadSVG, loadSVGThen, hc]
  rw [hload]
  exact ⟨rfl, getInnerHTML_setInnerHTML target body st.containers hc,
    List.getLast?_concat _, rfl, rfl⟩

/-- Witness for `loadSVG_success`: container `box` exists, fetch yields
`<svg/>`, position `(3, 4)`, callback supplied. -/
theorem loadSVG_success_witness :
    (((⟨[("box", "old")], [], [], 0⟩ : BrowserState).containers.find?
        (·.1 == "box")).isSome = true)
    ∧ ((loadSVG (.respond 200 "<svg/>") "box" 3 4 true
          ⟨[("box", "old")], [], [], 0⟩).containers
        = setInnerHTML "box" "<svg/>" (⟨[("box", "old")], [], [], 0⟩ :
            BrowserState).containers
      ∧ getInnerHTML "box"
          ((loadSVG (.respond 200 "<svg/>") "box" 3 4 true
            ⟨[("box", "old")], [], [], 0⟩).containers) = some "<svg/>"
      ∧ (loadSVG (.respond 200 "<svg/>") "box" 3 4 true
          ⟨[("box", "old")], [], [], 0⟩).gsapSets.getLast?
          = some ("#" ++ "box" ++ " svg", (3, 4))
      ∧ (loadSVG (.respond 200 "<svg/>") "box" 3 4 true
          ⟨[("box", "old")], [], [], 0⟩).callbackRuns
          = (⟨[("box", "old")], [], [], 0⟩ : BrowserState).callbackRuns
            + (if true then 1 else 0)
      ∧ (loadSVG (.respond 200 "<svg/>") "box" 3 4 true
          ⟨[("box", "old")], [], [], 0⟩).consoleErrors
          = (⟨[("box", "old")], [], [], 0⟩ : BrowserState).consoleErrors) :=
  ⟨by decide, loadSVG_success 200 "<svg/>" "box" 3 4 true _ (by decide)⟩

/-- **C3**: when the fetch rejects or the target container does not
exist, the callback is never invoked, exactly one descriptive error is
appended to the console log, and nothing else changes; no exception
escapes `loadSVG` — it is a total function into `BrowserState`, the
`.catch` handler having folded every failure into the log. -/
theorem loadSVG_failure (outcome : FetchOutcome) (target : String) (x y : ℚ)
    (hasCallback : Bool) (st : BrowserState)
    (h : (∃ e, outcome = .reject e)
        ∨ (st.containers.find? (·.1 == target)).isSome = false) :
    ∃ msg,
      (loadSVG outcome target x y hasCallback st).consoleErrors
          = st.consoleErrors ++ [msg]
      ∧ (loadSVG outcome target x y hasCallback st).callbackRuns = st.callbackRuns
      ∧ (loadSVG outcome target x y hasCallback st).containers = st.containers
      ∧ (loadSVG outcome target x y hasCallback st).gsapSets = st.gsapSets := by
  rcases outcome with ⟨status, body⟩ | ⟨err⟩
  · rcases h with ⟨e, he⟩ | hmiss
    · simp at he
    · exact ⟨"Error loading SVG: "
          ++ "TypeError: Cannot set properties of null (setting 'innerHTML')",
        by simp [loadSVG, loadSVGThen, hmiss], by simp [loadSVG, loadSVGThen, hmiss],
        by simp [loadSVG, loadSVGThen, hmiss], by simp [loadSVG, loadSVGThen, hmiss]⟩
  · exact ⟨"Error loading SVG: " ++ err, by simp [loadSVG], by simp [loadSVG],
      by simp [loadSVG], by simp [loadSVG]⟩

/-- Witness for `loadSVG_failure`: a network-level rejection. -/
theorem loadSVG_failure_witness :
    ((∃ e, (FetchOutcome.reject "network error" : FetchOutcome) = .reject e)
      ∨ (((⟨[], [], [], 0⟩ : BrowserState).containers.find?
          (·.1 == "box")).isSome = false))
    ∧ ∃ msg,
        (loadSVG (.reject "network error") "box" 1 2 true
            ⟨[], [], [], 0⟩).consoleErrors
          = (⟨[], [], [], 0⟩ : BrowserState).consoleErrors ++ [msg]
        ∧ (loadSVG (.reject "network error") "box" 1 2 true
            ⟨[], [], [], 0⟩).callbackRuns
          = (⟨[], [], [], 0⟩ : BrowserState).callbackRuns
        ∧ (loadSVG (.reject "network error") "box" 1 2 true
            ⟨[], [], [], 0⟩).containers
          = (⟨[], [], [], 0⟩ : BrowserState).containers
        ∧ (loadSVG (.reject "network error") "box" 1 2 true
            ⟨[], [], [], 0⟩).gsapSets
          = (⟨[], [], [], 0⟩ : BrowserState).gsapSets :=
  ⟨Or.inl ⟨"network error", rfl⟩,
    loadSVG_failure (.reject "network error") "box" 1 2 true ⟨[], [], [], 0⟩
      (Or.inl ⟨"network error", rfl⟩)⟩

/-- **C9**: every fetch that completes with an HTTP response — whatever
its status, 404 included — takes the success path (the code never reads
`response.ok`/`response.status`): body text inserted, position set,
callback invoked, nothing logged; the error branch is reached only when
the fetch itself rejects. -/
theorem loadSVG_ignores_http_status (status : ℕ) (body target : String) (x y : ℚ)
    (hasCallback : Bool) (st : BrowserState)
    (hc : (st.containers.find? (·.1 == target)).isSome = true) :
    getInnerHTML target
        ((loadSVG (.respond status body) target x y hasCallback st).containers)
      = some body
    ∧ (loadSVG (.respond status body) target x y hasCallback st).gsapSets
        = st.gsapSets ++ [("#" ++ target ++ " svg", (x, y))]
    ∧ (loadSVG (.respond status body) target x y hasCallback st).callbackRuns
        = st.callbackRuns + (if hasCallback then 1 else 0)
    ∧ (loadSVG (.respond status body) target x y hasCallback st).consoleErrors
        = st.consoleErrors
    ∧ ∀ err, loadSVG (.reject err) target x y hasCallback st
        = { st with consoleErrors :=
              st.consoleErrors ++ ["Error loading SVG: " ++ err] } := by
  have hload : loadSVG (.respond status body) target x y hasCallback st
      = { st with
          containers := setInnerHTML target body st.containers
          gsapSets := st.gsapSets ++ [("#" ++ target ++ " svg", (x, y))]
          callbackRuns := st.callbackRuns + (if hasCallback then 1 else 0) } := by
    simp [loadSVG, loadSVGThen, hc]
  rw [hload]
  exact ⟨getInnerHTML_setInnerHTML target body st.containers hc, rfl, rfl, rfl,
    fun _ => rfl⟩

/-- Witness for `loadSVG_ignores_http_status` at HTTP status 404. -/
theorem loadSVG_ignores_http_status_witness :
    (((⟨[("box", "old")], [], [], 0⟩ : BrowserState).containers.find?
        (·.1 == "box")).isSome = true)
    ∧ (getInnerHTML "box"
          ((loadSVG (.respond 404 "Not Found") "box" 5 6 false
            ⟨[("box", "old")], [], [], 0⟩).containers) = some "Not Found"
      ∧ (loadSVG (.respond 404 "Not Found") "box" 5 6 false
          ⟨[("box", "old")], [], [], 0⟩).gsapSets
          = (⟨[("box", "old")], [], [], 0⟩ : BrowserState).gsapSets
            ++ [("#" ++ "box" ++ " svg", (5, 6))]
      ∧ (loadSVG (.respond 404 "Not Found") "box" 5 6 false
          ⟨[("box", "old")], [], [], 0⟩).callbackRuns
          = (⟨[("box", "old")], [], [], 0⟩ : BrowserState).callbackRuns
            + (if false then 1 else 0)
      ∧ (loadSVG (.respond 404 "Not Found") "box" 5 6 false
          ⟨[("box", "old")], [], [], 0⟩).consoleErrors
          = (⟨[("box", "old")], [], [], 0⟩ : BrowserState).consoleErrors
      ∧ ∀ err, loadSVG (.reject err) "box" 5 6 false ⟨[("box", "old")], [], [], 0⟩
          = { (⟨[("box", "old")], [], [], 0⟩ : BrowserState) with
              consoleErrors :=
                (⟨[("box", "old")], [], [], 0⟩ : BrowserState).consoleErrors
                  ++ ["Error loading SVG: " ++ err] }) :=
  ⟨by decide, loadSVG_ignores_http_status 404 "Not Found" "box" 5 6 false _ (by decide)⟩
